import Mathlib

/-!
Shallow embedding of the weather-lab-data-api hurricane data pipeline
(src/services/data_fetcher.py, src/services/fetch_service.py,
src/utils/serialize.py): the CSV-envelope parser, the column-typing
pipeline, the track summarizer and the fetch orchestration layer,
together with theorems checking the specification's claims.
-/

namespace WeatherLab

/-- Python `str.upper()` (ASCII case mapping, which is all the marker needs). -/
def pyUpper (s : String) : String := ⟨s.data.map Char.toUpper⟩

/-- Python `str.strip()`: drop leading and trailing whitespace. -/
def pyStrip (s : String) : String :=
  ⟨((s.data.dropWhile Char.isWhitespace).reverse.dropWhile Char.isWhitespace).reverse⟩

/-- Python `s.replace('-', '_')` (single-character replacement). -/
def pyReplaceDash (s : String) : String :=
  ⟨s.data.map fun c => if c = '-' then '_' else c⟩

/-- `pat` occurs as a contiguous sublist of `l`. -/
def listContains (pat : List Char) : List Char → Bool
  | [] => pat.isEmpty
  | c :: rest => pat.isPrefixOf (c :: rest) || listContains pat rest

/-- Python `pat in s` (substring containment). -/
def pyContains (s pat : String) : Bool := listContains pat.data s.data

/-- Worker for `pySplit`: split on every non-overlapping occurrence of the
nonempty separator `sep`, left to right, exactly like Python `str.split(sep)`.
The fuel argument only makes the recursion structural; every step consumes at
least one character, so `pySplit` always supplies enough fuel. -/
def splitAux (sep : List Char) : Nat → List Char → List Char → List (List Char)
  | _, [], acc => [acc.reverse]
  | 0, l, acc => [acc.reverse ++ l]
  | fuel + 1, c :: rest, acc =>
    if sep.isPrefixOf (c :: rest) then
      acc.reverse :: splitAux sep fuel ((c :: rest).drop sep.length) []
    else
      splitAux sep fuel rest (c :: acc)

/-- Python `s.split(sep)` for a nonempty separator. -/
def pySplit (s sep : String) : List String :=
  match sep.data with
  | [] => [s]
  | c :: cs => (splitAux (c :: cs) (s.data.length + 1) s.data []).map fun l => ⟨l⟩

/-- A typed cell value. `missing` models the pandas NaN/NaT sentinel, the
spec's `Missing`. -/
inductive Value where
  | vstr (s : String)
  | vnum (q : ℚ)
  | vtime (t : Nat)
  | vdur (d : Int)
  | missing
deriving DecidableEq, Repr

/-- pandas `notna` on one cell. -/
def notna : Value → Bool
  | .missing => false
  | _ => true

/-- A dataframe, column-major: ordered (column name, cells) pairs. Column
names are taken distinct (pandas mangles duplicate CSV headers; the vendor
files have none). -/
structure Frame where
  cols : List (String × List Value)
deriving DecidableEq, Repr

def emptyFrame : Frame := ⟨[]⟩

def Frame.names (df : Frame) : List String := df.cols.map Prod.fst

def Frame.getCol? (df : Frame) (n : String) : Option (List Value) :=
  (df.cols.find? fun p => p.1 == n).map Prod.snd

/-- pandas `len(df)`: the number of rows. -/
def Frame.rowCount (df : Frame) : Nat :=
  match df.cols with
  | [] => 0
  | (_, c) :: _ => c.length

/-- pandas `DataFrame.empty`: no rows or no columns. -/
def Frame.isEmpty (df : Frame) : Bool :=
  match df.cols with
  | [] => true
  | (_, c) :: _ => c.isEmpty

def digitsVal (ds : List Char) : Nat :=
  ds.foldl (fun n c => 10 * n + (c.toNat - 48)) 0

def parseNatAll (cs : List Char) : Option Nat :=
  if cs.isEmpty || !cs.all Char.isDigit then none else some (digitsVal cs)

/-- The float syntax `pandas.to_numeric` accepts on these files: optional
sign, digits with an optional fractional part, optional exponent; modelled
over ℚ. Anything else is unparsable. -/
def parseFloat (s : String) : Option ℚ :=
  let cs0 := (pyStrip s).data
  let sgn : Int := match cs0 with
    | '-' :: _ => -1
    | _ => 1
  let cs := match cs0 with
    | '-' :: r => r
    | '+' :: r => r
    | r => r
  let ip := cs.takeWhile Char.isDigit
  let cs1 := cs.dropWhile Char.isDigit
  let fp := match cs1 with
    | '.' :: r => r.takeWhile Char.isDigit
    | _ => []
  let cs2 := match cs1 with
    | '.' :: r => r.dropWhile Char.isDigit
    | r => r
  if ip.isEmpty && fp.isEmpty then none
  else
    let base : Int := sgn * ((digitsVal ip * 10 ^ fp.length + digitsVal fp : Nat) : Int)
    let den : Nat := 10 ^ fp.length
    match cs2 with
    | [] => some (mkRat base den)
    | e :: r =>
      if e = 'e' ∨ e = 'E' then
        let eneg : Bool := match r with
          | '-' :: _ => true
          | _ => false
        let r1 := match r with
          | '-' :: rr => rr
          | '+' :: rr => rr
          | rr => rr
        let ed := r1.takeWhile Char.isDigit
        if ed.isEmpty || !(r1.dropWhile Char.isDigit).isEmpty then none
        else if eneg then some (mkRat base (den * 10 ^ digitsVal ed))
        else some (mkRat (base * 10 ^ digitsVal ed) den)
      else none

/-- `YYYY-MM-DD` with basic range validation, to a linear day code. -/
def parseDatePart (d : String) : Option Nat :=
  match pySplit d "-" with
  | [y, m, dd] => do
    let yn ← parseNatAll y.data
    let mn ← parseNatAll m.data
    let dn ← parseNatAll dd.data
    if 1 ≤ mn ∧ mn ≤ 12 ∧ 1 ≤ dn ∧ dn ≤ 31 then pure ((yn * 12 + mn) * 31 + dn)
    else none
  | _ => none

/-- `HH:MM:SS` with clock-range validation, to seconds. -/
def parseTimePart (t : String) : Option Nat :=
  match pySplit t ":" with
  | [h, m, s] => do
    let hn ← parseNatAll h.data
    let mn ← parseNatAll m.data
    let sn ← parseNatAll s.data
    if hn ≤ 23 ∧ mn ≤ 59 ∧ sn ≤ 59 then pure (hn * 3600 + mn * 60 + sn)
    else none
  | _ => none

/-- The timestamp formats `pandas.to_datetime` sees in these files:
`YYYY-MM-DD`, optionally followed by a space- or `T`-separated `HH:MM:SS`.
`none` models the parse raising on an unrecognizable string. -/
def parseTimestamp (s : String) : Option Nat :=
  let t := pyStrip s
  let parts := if pyContains t " " then pySplit t " " else pySplit t "T"
  match parts with
  | [d] => (parseDatePart d).map (· * 86400)
  | [d, tm] => do
    let dd ← parseDatePart d
    let ts ← parseTimePart tm
    pure (dd * 86400 + ts)
  | _ => none

/-- `HH:MM:SS` for durations: the hour field is unbounded. -/
def parseHMSDur (t : String) : Option Nat :=
  match pySplit t ":" with
  | [h, m, s] => do
    let hn ← parseNatAll h.data
    let mn ← parseNatAll m.data
    let sn ← parseNatAll s.data
    if mn ≤ 59 ∧ sn ≤ 59 then pure (hn * 3600 + mn * 60 + sn)
    else none
  | _ => none

/-- The duration syntax `pandas.to_timedelta` sees in these files:
`"<n> days"`, `"<n> days HH:MM:SS"` or `"HH:MM:SS"`, optionally negated;
`none` models the parse raising. -/
def parseDuration (s : String) : Option Int :=
  let t := pyStrip s
  let neg : Bool := match t.data with
    | '-' :: _ => true
    | _ => false
  let t1 : String := match t.data with
    | '-' :: r => ⟨r⟩
    | _ => t
  let secs : Option Nat :=
    match pySplit t1 " " with
    | [n, u] =>
      if u = "days" ∨ u = "day" then (parseNatAll n.data).map (· * 86400) else none
    | [n, u, hms] =>
      if u = "days" ∨ u = "day" then do
        let nn ← parseNatAll n.data
        let ts ← parseHMSDur hms
        pure (nn * 86400 + ts)
      else none
    | [hms] => parseHMSDur hms
    | _ => none
  secs.map fun n => if neg then -(n : Int) else (n : Int)

/-- A raw CSV field: the empty field reads as NaN, anything else as a string. -/
def toRawCell (s : String) : Value := if s = "" then .missing else .vstr s

/-- `pandas.read_csv` on the reconstructed header+data text: comma-split
fields (the vendor dialect has no quoting), empty fields become NaN, blank
lines are skipped, short rows are NaN-padded. Cells stay raw strings here;
the per-column coercions below re-type them (read_csv dtype inference is
elided, since every claim goes through those coercions). -/
def readCsv (header : String) (dataLines : List String) : Frame :=
  let names := pySplit header ","
  let rows := (dataLines.filter fun l => l ≠ "").map fun l => (pySplit l ",").map toRawCell
  ⟨names.enum.map fun p => (p.2, rows.map fun r => r.getD p.1 .missing)⟩

inductive EnvelopeErr where
  | noMarker
  | noHeaderAfterMarker
deriving DecidableEq, Repr

/-- Line 138: `'BEGIN DATA' in line.upper()`. -/
def containsMarker (line : String) : Bool := pyContains (pyUpper line) "BEGIN DATA"

/-- data_fetcher._load_csv lines 136-177: scan for the first `BEGIN DATA`
marker line and extract (header line, data lines). The two error values are
the source's two logged-error branches that return the empty dataframe:
no marker anywhere (lines 175-177, the spec's `MalformedEnvelope`), and a
marker on the last line with no header after it (lines 151-153). -/
def findDataBlock : List String → Except EnvelopeErr (String × List String)
  | [] => .error .noMarker
  | line :: rest =>
    if containsMarker line then
      if (pySplit line "BEGIN DATA ").length > 1 then
        .ok (pyStrip ((pySplit line "BEGIN DATA ").getD 1 ""), rest)
      else
        match rest with
        | [] => .error .noHeaderAfterMarker
        | h :: dataRows => .ok (pyStrip h, dataRows)
    else
      findDataBlock rest

/-- Line 183. -/
def datetimeColumns : List String := ["init_time", "valid_time"]

/-- Lines 193-202. -/
def numericColumns : List String :=
  ["lat", "lon", "minimum_sea_level_pressure_hpa",
   "maximum_sustained_wind_speed_knots", "radius_of_maximum_winds_km",
   "radius_34_knot_winds_ne_km", "radius_34_knot_winds_se_km",
   "radius_34_knot_winds_sw_km", "radius_34_knot_winds_nw_km",
   "radius_50_knot_winds_ne_km", "radius_50_knot_winds_se_km",
   "radius_50_knot_winds_sw_km", "radius_50_knot_winds_nw_km",
   "radius_64_knot_winds_ne_km", "radius_64_knot_winds_se_km",
   "radius_64_knot_winds_sw_km", "radius_64_knot_winds_nw_km"]

/-- Line 180, `df.dropna(axis=1, how='all')`: drop every column whose every
cell is NaN. This runs on the raw cells, before any coercion. -/
def dropAllMissingCols (df : Frame) : Frame :=
  ⟨df.cols.filter fun p => p.2.any notna⟩

/-- One cell under `pd.to_datetime` with the default `errors='raise'`:
NaN passes through as NaT, an unparsable string raises (`none`). -/
def toDatetimeCell : Value → Option Value
  | .missing => some .missing
  | .vstr s => (parseTimestamp s).map .vtime
  | v => some v

/-- Effectful map over a list in the Option monad, failing fast. -/
def optionMapM {α β : Type} (f : α → Option β) : List α → Option (List β)
  | [] => some []
  | x :: xs => do
    let y ← f x
    let ys ← optionMapM f xs
    pure (y :: ys)

/-- Effectful map over a list in the Except monad, failing fast. -/
def exceptMapM {α β : Type} (f : α → Except String β) : List α → Except String (List β)
  | [] => .ok []
  | x :: xs => do
    let y ← f x
    let ys ← exceptMapM f xs
    pure (y :: ys)

/-- Lines 182-186: datetime coercion of `init_time` and `valid_time`;
a raise anywhere aborts (`none`). -/
def convertDatetimes (df : Frame) : Option Frame := do
  let cols ← optionMapM (fun p =>
    if p.1 ∈ datetimeColumns then (optionMapM toDatetimeCell p.2).map ((p.1, ·))
    else some p) df.cols
  pure ⟨cols⟩

/-- One cell under `pd.to_timedelta` (default `errors='raise'`). -/
def toTimedeltaCell : Value → Option Value
  | .missing => some .missing
  | .vstr s => (parseDuration s).map .vdur
  | v => some v

/-- Lines 188-190: timedelta coercion of `lead_time`. -/
def convertTimedeltas (df : Frame) : Option Frame := do
  let cols ← optionMapM (fun p =>
    if p.1 = "lead_time" then (optionMapM toTimedeltaCell p.2).map ((p.1, ·))
    else some p) df.cols
  pure ⟨cols⟩

/-- One cell under `pd.to_numeric(errors='coerce')`: an unparsable string
becomes NaN, never an error. -/
def toNumericCell : Value → Value
  | .missing => .missing
  | .vstr s =>
    match parseFloat s with
    | some q => .vnum q
    | none => .missing
  | v => v

/-- Lines 204-206: numeric coercion of the geophysical columns. -/
def convertNumerics (df : Frame) : Frame :=
  ⟨df.cols.map fun p =>
    if p.1 ∈ numericColumns then (p.1, p.2.map toNumericCell) else p⟩

/-- _load_csv lines 180-206: empty-column removal (before any coercion),
then the datetime, timedelta and numeric coercions. `none` models an
exception escaping to the handler at lines 211-213. -/
def typeSteps (df0 : Frame) : Option Frame := do
  let df1 := dropAllMissingCols df0
  let df2 ← convertDatetimes df1
  let df3 ← convertTimedeltas df2
  pure (convertNumerics df3)

/-- _load_csv as a whole, on the file's lines: both envelope failures and a
coercion exception yield the empty dataframe (lines 153, 177, 211-213). -/
def loadCsv (lines : List String) : Frame :=
  match findDataBlock lines with
  | .error _ => emptyFrame
  | .ok (h, d) => (typeSteps (readCsv h d)).getD emptyFrame

def numsOf (cells : List Value) : List ℚ :=
  cells.filterMap fun v =>
    match v with
    | .vnum q => some q
    | _ => none

def timesOf (cells : List Value) : List Nat :=
  cells.filterMap fun v =>
    match v with
    | .vtime t => some t
    | _ => none

/-- pandas `Series.max` on a numeric column (default skipna): NaN when there
is no non-missing value, otherwise the numeric maximum. -/
def seriesMaxQ (cells : List Value) : Value :=
  match numsOf cells with
  | [] => .missing
  | x :: xs => .vnum (xs.foldl max x)

/-- pandas `Series.min` on a numeric column. -/
def seriesMinQ (cells : List Value) : Value :=
  match numsOf cells with
  | [] => .missing
  | x :: xs => .vnum (xs.foldl min x)

/-- pandas `Series.max` on a datetime column: NaT when all NaT. -/
def seriesMaxT (cells : List Value) : Value :=
  match timesOf cells with
  | [] => .missing
  | x :: xs => .vtime (xs.foldl max x)

/-- pandas `Series.min` on a datetime column. -/
def seriesMinT (cells : List Value) : Value :=
  match timesOf cells with
  | [] => .missing
  | x :: xs => .vtime (xs.foldl min x)

/-- The per-track record built at lines 249-258. -/
structure TrackSummary where
  track_id : String
  records : Nat
  max_wind_speed : Value
  min_pressure : Value
  lat_range : Value × Value
  lon_range : Value × Value
  time_range : Value × Value
  has_radius_data : Bool
deriving DecidableEq, Repr

/-- The table-wide record built at lines 262-271. -/
structure DataQuality where
  has_coordinates : Bool
  has_wind_data : Bool
  has_pressure_data : Bool
  has_radius_data : Bool
  lat_range : Value × Value
  lon_range : Value × Value
deriving DecidableEq, Repr

/-- Loose model of `str(DataFrame)`: some multi-line rendering (it contains a
newline). The buggy summary path only ever uses it as an opaque cache/URL
key, and every theorem touching it constrains the environment at these keys
explicitly. -/
def frameRepr (df : Frame) : String :=
  String.intercalate " " df.names ++ "\n[" ++ toString df.rowCount ++ " rows]"

/-- The dynamic `date` argument of download_hurricane_data: the API passes a
string, but fetch_service.get_summary_for_date (line 72) passes the fetched
DataFrame itself. -/
inductive DateArg where
  | str (s : String)
  | frame (df : Frame)
deriving DecidableEq, Repr

/-- `date.replace('-', '_')` as interpolated into filename and URL templates:
on a string, hyphens become underscores; on a DataFrame, `DataFrame.replace`
returns a DataFrame whose `str()` rendering is interpolated. -/
def argKey : DateArg → String
  | .str s => pyReplaceDash s
  | .frame df => frameRepr df

/-- The summary dict of lines 240-273. `date` holds whatever was passed as
the `date` parameter. -/
structure Summary where
  date : DateArg
  total_records : Nat
  hurricanes : List (String × TrackSummary)
  data_quality : DataQuality
deriving DecidableEq, Repr

/-- Column access `df[name]`: Python raises KeyError when absent. -/
def getCol (df : Frame) (n : String) : Except String (List Value) :=
  match df.getCol? n with
  | some c => .ok c
  | none => .error ("KeyError: " ++ n)

/-- The boolean row mask of one `groupby('track_id')` group. -/
def maskOf (tid : List Value) (k : String) : List Bool :=
  tid.map fun v => v == Value.vstr k

/-- Restrict a column to the rows a group mask selects. -/
def colGroup (mask : List Bool) (col : List Value) : List Value :=
  (mask.zip col).filterMap fun mc => if mc.1 then some mc.2 else none

def insertSorted (s : String) : List String → List String
  | [] => [s]
  | t :: ts => if s < t then s :: t :: ts else t :: insertSorted s ts

def sortStrings (l : List String) : List String := l.foldr insertSorted []

/-- The group keys of `df.groupby('track_id')`: the distinct non-NaN values,
in sorted order (pandas `sort=True`). -/
def tidKeys (tid : List Value) : List String :=
  sortStrings ((tid.filterMap fun v =>
    match v with
    | .vstr s => some s
    | _ => none).dedup)

/-- One iteration of the groupby loop, lines 248-258. -/
def trackSummaryFor (df : Frame) (tid : List Value) (k : String) :
    Except String TrackSummary := do
  let mask := maskOf tid k
  let wind ← getCol df "maximum_sustained_wind_speed_knots"
  let pres ← getCol df "minimum_sea_level_pressure_hpa"
  let la ← getCol df "lat"
  let lo ← getCol df "lon"
  let vt ← getCol df "valid_time"
  let ne ← getCol df "radius_34_knot_winds_ne_km"
  pure {
    track_id := k
    records := mask.count true
    max_wind_speed := seriesMaxQ (colGroup mask wind)
    min_pressure := seriesMinQ (colGroup mask pres)
    lat_range := (seriesMinQ (colGroup mask la), seriesMaxQ (colGroup mask la))
    lon_range := (seriesMinQ (colGroup mask lo), seriesMaxQ (colGroup mask lo))
    time_range := (seriesMinT (colGroup mask vt), seriesMaxT (colGroup mask vt))
    has_radius_data := (colGroup mask ne).any notna }

/-- get_hurricane_summary lines 236-273, given the dataframe its own
re-fetch produced (`none` = fetch returned None). `.ok none` is the `{}`
return of line 238; `.error` a KeyError escaping the method. -/
def getHurricaneSummaryDf (d : DateArg) : Option Frame → Except String (Option Summary)
  | none => .ok none
  | some df =>
    if df.isEmpty then .ok none
    else do
      let tid ← getCol df "track_id"
      let hs ← exceptMapM (fun k => do
        let ts ← trackSummaryFor df tid k
        pure (k, ts)) (tidKeys tid)
      let la ← getCol df "lat"
      let lo ← getCol df "lon"
      let wind ← getCol df "maximum_sustained_wind_speed_knots"
      let pres ← getCol df "minimum_sea_level_pressure_hpa"
      let ne ← getCol df "radius_34_knot_winds_ne_km"
      pure (some {
        date := d
        total_records := df.rowCount
        hurricanes := hs
        data_quality := {
          has_coordinates := (la ++ lo).all notna
          has_wind_data := wind.all notna
          has_pressure_data := pres.all notna
          has_radius_data := ne.any notna
          lat_range := (seriesMinQ la, seriesMaxQ la)
          lon_range := (seriesMinQ lo, seriesMaxQ lo) } })

/-- External collaborators of the fetcher: the filesystem cache (filename ↦
file lines), file age in whole days, and the HTTP transport (url ↦ response
lines, `none` meaning any request failure). -/
structure Env where
  localFiles : String → Option (List String)
  ageDays : String → Nat
  remote : String → Option (List String)

/-- Lines 62-66. -/
def possibleFilenames (d : DateArg) : List String :=
  ["FNV3_" ++ argKey d ++ "T00_00_paired.csv",
   "FNV3_" ++ argKey d ++ "T12_00_paired.csv",
   "FNV3_" ++ argKey d ++ "_hurricane_data.csv"]

/-- Lines 17-25. -/
def weatherlabUrl (d : DateArg) : String :=
  "https://deepmind.google.com/science/weatherlab/download/cyclones/FNV3/ensemble_mean/paired/csv/FNV3_"
    ++ argKey d ++ "T00_00_paired.csv"

/-- How download_hurricane_data returned: from a pre-existing local file
(lines 69-73), from the fresh-cache branch (lines 81-85), from a remote
download whose body was first written to the cache file (lines 87-97), or
`failed` = the None return (lines 99-104). -/
inductive FetchOutcome where
  | fromLocal (filename : String) (df : Frame)
  | fromCacheFresh (df : Frame)
  | fromRemote (df : Frame)
  | failed
deriving DecidableEq, Repr

/-- download_hurricane_data lines 62-104. -/
def downloadHurricaneData (env : Env) (d : DateArg) (force : Bool) : FetchOutcome :=
  match (possibleFilenames d).find? (fun fn => (env.localFiles fn).isSome) with
  | some fn =>
    match env.localFiles fn with
    | some lines => .fromLocal fn (loadCsv lines)
    | none => .failed
  | none =>
    let fp := "FNV3_" ++ argKey d ++ "T00_00_paired.csv"
    let remotePart : FetchOutcome :=
      match env.remote (weatherlabUrl d) with
      | some text => .fromRemote (loadCsv text)
      | none => .failed
    if force = false ∧ (env.localFiles fp).isSome then
      if env.ageDays fp < 1 then .fromCacheFresh (loadCsv ((env.localFiles fp).getD []))
      else remotePart
    else remotePart

/-- The dataframe a fetch outcome delivers (`none` = the None return). -/
def toDf : FetchOutcome → Option Frame
  | .fromLocal _ df => some df
  | .fromCacheFresh df => some df
  | .fromRemote df => some df
  | .failed => none

/-- get_hurricane_summary including its own re-fetch at line 236 (called
with `force_download` left at False). -/
def getHurricaneSummary (env : Env) (d : DateArg) : Except String (Option Summary) :=
  getHurricaneSummaryDf d (toDf (downloadHurricaneData env d false))

/-- A JSON-compatible cell as produced by utils/serialize.py. -/
inductive JVal where
  | jnull
  | jstr (s : String)
  | jnum (q : ℚ)
deriving DecidableEq, Repr

/-- Stands in for `strftime('%Y-%m-%d %H:%M:%S')` on the linear time code;
no claim depends on the rendered text, only on it being a string. -/
def fmtTimestamp (t : Nat) : String := "ts " ++ toString t

/-- One cell of utils/serialize.dataframe_to_records: timedeltas to seconds,
datetimes to formatted strings, NaN to null. -/
def serializeCell : Value → JVal
  | .missing => .jnull
  | .vstr s => .jstr s
  | .vnum q => .jnum q
  | .vtime t => .jstr (fmtTimestamp t)
  | .vdur d => .jnum (d : ℚ)

/-- utils/serialize.dataframe_to_records: `[]` for None or an empty frame,
else one key→value mapping per row. -/
def dataframeToRecords : Option Frame → List (List (String × JVal))
  | none => []
  | some df =>
    if df.isEmpty then []
    else (List.range df.rowCount).map fun i =>
      df.cols.map fun p => (p.1, serializeCell (p.2.getD i .missing))

/-- The single-date response shape of fetch_service.get_data_for_date. -/
structure SingleResponse where
  date : String
  record_count : Nat
  source : String
  cached : Bool
  records : List (List (String × JVal))
deriving DecidableEq, Repr

/-- fetch_service.get_data_for_date lines 18-27: note `cached := not force`
regardless of where the data came from. -/
def getDataForDate (env : Env) (date : String) (force : Bool) : SingleResponse :=
  let records := dataframeToRecords (toDf (downloadHurricaneData env (.str date) force))
  { date := date
    record_count := records.length
    source := "local_or_remote"
    cached := !force
    records := records }

/-- get_data_for_date as seen from get_data_range's try block. It is total:
the fetcher catches every exception (lines 99-104 of data_fetcher) and the
serializer raises nothing, so the `.error` branch below never fires; the
range handler's except-branch is still modelled faithfully. -/
def getDataForDateE (env : Env) (date : String) (force : Bool) :
    Except String SingleResponse :=
  .ok (getDataForDate env date force)

structure RangeEntry where
  record_count : Nat
  records : List (List (String × JVal))
  error : Option String
deriving DecidableEq, Repr

structure RangeResult where
  start_date : String
  end_date : String
  total_dates : Nat
  total_records : Nat
  data : List (String × RangeEntry)
deriving DecidableEq, Repr

/-- fetch_service.get_data_range lines 40-66. The calendar enumeration of
`start..end` one day at a time is passed in as `dates`, the list of date
strings it produces (the Gregorian stepping itself carries no claim). -/
def getDataRange (env : Env) (start : String) (dates : List String)
    (force : Bool) : RangeResult :=
  let data := dates.map fun d =>
    match getDataForDateE env d force with
    | .ok r => (d, RangeEntry.mk r.record_count r.records none)
    | .error e => (d, RangeEntry.mk 0 [] (some e))
  { start_date := start
    end_date := (dates.getLast?).getD start
    total_dates := data.length
    total_records := (data.map fun p => p.2.record_count).sum
    data := data }

structure SummaryResponse where
  date : String
  summary : Option Summary
  error : Option String
deriving DecidableEq, Repr

/-- fetch_service.get_summary_for_date lines 68-82. Line 72 passes the
fetched DataFrame, not the date string, to get_hurricane_summary. When the
fetch returned None, the inner `date.replace` call on None raises
AttributeError, caught by the handler at line 77. -/
def getSummaryForDate (env : Env) (date : String) : SummaryResponse :=
  match toDf (downloadHurricaneData env (.str date) false) with
  | none =>
    { date := date
      summary := none
      error := some "AttributeError: NoneType has no attribute replace" }
  | some df =>
    match getHurricaneSummary env (.frame df) with
    | .ok s => { date := date, summary := s, error := none }
    | .error e => { date := date, summary := none, error := some e }

/-! ### Helper lemmas -/

theorem optionMapM_eq_none {α β : Type} (f : α → Option β) :
    ∀ (l : List α) (a : α), a ∈ l → f a = none → optionMapM f l = none := by
  intro l
  induction l with
  | nil => intro a ha; cases ha
  | cons x xs ih =>
    intro a ha hfa
    rcases List.mem_cons.mp ha with rfl | hmem
    · simp [optionMapM, hfa]
    · cases hfx : f x with
      | none => simp [optionMapM, hfx]
      | some y => simp [optionMapM, hfx, ih a hmem hfa]

theorem optionMapM_names {f : String × List Value → Option (String × List Value)}
    (hf : ∀ p q, f p = some q → q.1 = p.1) :
    ∀ (l m : List (String × List Value)), optionMapM f l = some m →
      m.map Prod.fst = l.map Prod.fst := by
  intro l
  induction l with
  | nil =>
    intro m hm
    simp only [optionMapM, Option.some.injEq] at hm
    simp [← hm]
  | cons x xs ih =>
    intro m hm
    cases hfx : f x with
    | none => simp [optionMapM, hfx] at hm
    | some y =>
      cases hxs : optionMapM f xs with
      | none => simp [optionMapM, hfx, hxs] at hm
      | some ys =>
        simp [optionMapM, hfx, hxs] at hm
        subst hm
        simp [hf x y hfx, ih ys hxs]

theorem exceptMapM_ok_of_forall {α β : Type} (f : α → Except String β) (g : α → β) :
    ∀ (l : List α), (∀ a ∈ l, f a = .ok (g a)) → exceptMapM f l = .ok (l.map g) := by
  intro l
  induction l with
  | nil => intro _; rfl
  | cons x xs ih =>
    intro h
    have hx := h x (by simp)
    have hxs := ih fun a ha => h a (by simp [ha])
    simp only [exceptMapM, hx, hxs]
    rfl

theorem map_fst_preserved {f : String × List Value → String × List Value}
    (hf : ∀ p, (f p).1 = p.1) :
    ∀ l : List (String × List Value), (l.map f).map Prod.fst = l.map Prod.fst := by
  intro l
  induction l with
  | nil => rfl
  | cons p ps ih => simp [ih, hf p]

theorem convertNumerics_names (df : Frame) : (convertNumerics df).names = df.names := by
  apply map_fst_preserved
  intro p
  by_cases h : p.1 ∈ numericColumns <;> simp [h]

theorem foldl_max_mem (x : ℚ) (xs : List ℚ) : xs.foldl max x ∈ x :: xs := by
  induction xs generalizing x with
  | nil => simp
  | cons a l ih =>
    have h := ih (max x a)
    simp only [List.foldl_cons]
    rcases List.mem_cons.mp h with h1 | h1
    · rcases max_choice x a with hm | hm
      · exact List.mem_cons.mpr (Or.inl (h1.trans hm))
      · exact List.mem_cons.mpr (Or.inr (List.mem_cons.mpr (Or.inl (h1.trans hm))))
    · exact List.mem_cons.mpr (Or.inr (List.mem_cons.mpr (Or.inr h1)))

theorem foldl_max_le (x : ℚ) (xs : List ℚ) : ∀ y ∈ x :: xs, y ≤ xs.foldl max x := by
  induction xs generalizing x with
  | nil =>
    intro y hy
    simp only [List.mem_singleton] at hy
    simp [hy]
  | cons a l ih =>
    intro y hy
    simp only [List.foldl_cons]
    have hrec := ih (max x a)
    rcases List.mem_cons.mp hy with rfl | hy2
    · exact le_trans (le_max_left y a) (hrec _ (by simp))
    · rcases List.mem_cons.mp hy2 with rfl | hy3
      · exact le_trans (le_max_right x y) (hrec _ (by simp))
      · exact hrec y (by simp [hy3])

theorem foldl_min_mem (x : ℚ) (xs : List ℚ) : xs.foldl min x ∈ x :: xs := by
  induction xs generalizing x with
  | nil => simp
  | cons a l ih =>
    have h := ih (min x a)
    simp only [List.foldl_cons]
    rcases List.mem_cons.mp h with h1 | h1
    · rcases min_choice x a with hm | hm
      · exact List.mem_cons.mpr (Or.inl (h1.trans hm))
      · exact List.mem_cons.mpr (Or.inr (List.mem_cons.mpr (Or.inl (h1.trans hm))))
    · exact List.mem_cons.mpr (Or.inr (List.mem_cons.mpr (Or.inr h1)))

theorem foldl_min_le (x : ℚ) (xs : List ℚ) : ∀ y ∈ x :: xs, xs.foldl min x ≤ y := by
  induction xs generalizing x with
  | nil =>
    intro y hy
    simp only [List.mem_singleton] at hy
    simp [hy]
  | cons a l ih =>
    intro y hy
    simp only [List.foldl_cons]
    have hrec := ih (min x a)
    rcases List.mem_cons.mp hy with rfl | hy2
    · exact le_trans (hrec _ (by simp)) (min_le_left y a)
    · rcases List.mem_cons.mp hy2 with rfl | hy3
      · exact le_trans (hrec _ (by simp)) (min_le_right x y)
      · exact hrec y (by simp [hy3])

theorem seriesMaxQ_missing (cells : List Value) (h : numsOf cells = []) :
    seriesMaxQ cells = .missing := by
  simp [seriesMaxQ, h]

theorem seriesMaxQ_spec (cells : List Value) (q : ℚ) (h : seriesMaxQ cells = .vnum q) :
    q ∈ numsOf cells ∧ ∀ r ∈ numsOf cells, r ≤ q := by
  unfold seriesMaxQ at h
  cases hn : numsOf cells with
  | nil => rw [hn] at h; cases h
  | cons x xs =>
    rw [hn] at h
    have hq : xs.foldl max x = q := by injection h
    subst hq
    exact ⟨foldl_max_mem x xs, foldl_max_le x xs⟩

theorem seriesMinQ_missing (cells : List Value) (h : numsOf cells = []) :
    seriesMinQ cells = .missing := by
  simp [seriesMinQ, h]

theorem seriesMinQ_spec (cells : List Value) (q : ℚ) (h : seriesMinQ cells = .vnum q) :
    q ∈ numsOf cells ∧ ∀ r ∈ numsOf cells, q ≤ r := by
  unfold seriesMinQ at h
  cases hn : numsOf cells with
  | nil => rw [hn] at h; cases h
  | cons x xs =>
    rw [hn] at h
    have hq : xs.foldl min x = q := by injection h
    subst hq
    exact ⟨foldl_min_mem x xs, foldl_min_le x xs⟩

theorem findDataBlock_append (pre rest : List String)
    (hpre : ∀ l ∈ pre, containsMarker l = false) :
    findDataBlock (pre ++ rest) = findDataBlock rest := by
  induction pre with
  | nil => rfl
  | cons a t ih =>
    have ha := hpre a (by simp)
    rw [List.cons_append]
    rw [show findDataBlock (a :: (t ++ rest)) = findDataBlock (t ++ rest) by
      simp [findDataBlock, ha]]
    exact ih fun l hl => hpre l (by simp [hl])

/-! ### C2 -/

/-- C2: for every raw input in which no line contains the marker `BEGIN DATA`
case-insensitively, the envelope scan fails with the no-marker error (the
code's realization of `MalformedEnvelope`: the logged-error branch of lines
175-177) and the loader yields no parsed table, only the empty-frame
sentinel. -/
theorem C2_no_marker_fails (lines : List String)
    (h : ∀ l ∈ lines, containsMarker l = false) :
    findDataBlock lines = .error .noMarker ∧ loadCsv lines = emptyFrame := by
  have hfb : findDataBlock lines = .error .noMarker := by
    induction lines with
    | nil => rfl
    | cons a rest ih =>
      have ha : containsMarker a = false := h a (by simp)
      have hr := ih fun l hl => h l (by simp [hl])
      simp [findDataBlock, ha, hr]
  refine ⟨hfb, ?_⟩
  unfold loadCsv
  rw [hfb]

/-- Witness for C2 at a concrete marker-free input. -/
theorem C2_witness :
    findDataBlock ["# hello", "1,2"] = .error .noMarker ∧
    loadCsv ["# hello", "1,2"] = emptyFrame :=
  C2_no_marker_fails ["# hello", "1,2"] (by decide)

/-! ### C10 -/

/-- C10: the single-date response's `meta.cached` field equals `not force`
for every environment, date and force flag — independent of whether the
records actually came from the cache or from a fresh download. -/
theorem C10_cached_flag (env : Env) (date : String) (force : Bool) :
    (getDataForDate env date force).cached = !force := rfl

/-! ### C7 -/

/-- C7 (amended): download_hurricane_data ignores the force flag entirely.
If any of the three candidate local files exists, the first such file is
served, for any force value and any file age; only when none exists is the
remote request issued. The 24-hour freshness branch (lines 81-85) is
unreachable, since its filename was already checked by the local-file loop. -/
theorem C7_cache_behavior (env : Env) (d : DateArg) (f1 f2 : Bool) :
    downloadHurricaneData env d f1 = downloadHurricaneData env d f2 ∧
    (∀ fn, (possibleFilenames d).find? (fun n => (env.localFiles n).isSome) = some fn →
      ∀ lines, env.localFiles fn = some lines →
        downloadHurricaneData env d f1 = .fromLocal fn (loadCsv lines)) ∧
    ((∀ fn ∈ possibleFilenames d, env.localFiles fn = none) →
      (∀ text, env.remote (weatherlabUrl d) = some text →
        downloadHurricaneData env d f1 = .fromRemote (loadCsv text)) ∧
      (env.remote (weatherlabUrl d) = none →
        downloadHurricaneData env d f1 = .failed)) := by
  refine ⟨?_, ?_, ?_⟩
  · cases hfind : (possibleFilenames d).find? (fun n => (env.localFiles n).isSome) with
    | some fn =>
      cases hl : env.localFiles fn <;>
        simp [downloadHurricaneData, hfind, hl]
    | none =>
      have hall := List.find?_eq_none.mp hfind
      have h1 := hall ("FNV3_" ++ argKey d ++ "T00_00_paired.csv")
        (by simp [possibleFilenames])
      have hfp : env.localFiles ("FNV3_" ++ argKey d ++ "T00_00_paired.csv") = none := by
        cases h2 : env.localFiles ("FNV3_" ++ argKey d ++ "T00_00_paired.csv")
        · rfl
        · rw [h2] at h1; simp at h1
      simp [downloadHurricaneData, hfind, hfp]
  · intro fn hfn lines hl
    simp [downloadHurricaneData, hfn, hl]
  · intro hnone
    have hfind : (possibleFilenames d).find? (fun n => (env.localFiles n).isSome) = none := by
      apply List.find?_eq_none.mpr
      intro x hx
      simp [hnone x hx]
    have hfp : env.localFiles ("FNV3_" ++ argKey d ++ "T00_00_paired.csv") = none :=
      hnone ("FNV3_" ++ argKey d ++ "T00_00_paired.csv") (by simp [possibleFilenames])
    constructor
    · intro text hrem
      simp [downloadHurricaneData, hfind, hfp, hrem]
    · intro hrem
      simp [downloadHurricaneData, hfind, hfp, hrem]

/-- A cached vendor file for the counterexamples. -/
def cachedLines7 : List String := ["# BEGIN DATA track_id,lat", "AL01,10.5"]

/-- What the remote endpoint would serve instead. -/
def remoteLines7 : List String := ["# BEGIN DATA track_id,lat", "AL02,20.5"]

/-- An environment whose cache already holds a (stale) file for 2024-09-23. -/
def env7 : Env :=
  { localFiles := fun n =>
      if n = "FNV3_2024_09_23T00_00_paired.csv" then some cachedLines7 else none
    ageDays := fun _ => 5
    remote := fun _ => some remoteLines7 }

/-- Counterexample to C7: with forceRefresh true and a 5-day-old cache entry
present, the fetch still returns the previously cached content from the
local file, and that content differs from what the remote now serves. -/
theorem C7_counterexample :
    downloadHurricaneData env7 (.str "2024-09-23") true =
      .fromLocal "FNV3_2024_09_23T00_00_paired.csv" (loadCsv cachedLines7) ∧
    loadCsv cachedLines7 ≠ loadCsv remoteLines7 := by
  exact ⟨by decide, by decide⟩

/-- An environment with no local files and a dead remote. -/
def env7b : Env :=
  { localFiles := fun _ => none
    ageDays := fun _ => 0
    remote := fun _ => none }

/-- Witness for C7 applying the theorem at a concrete environment. -/
theorem C7_witness : downloadHurricaneData env7b (.str "2024-09-24") true = .failed :=
  ((C7_cache_behavior env7b (.str "2024-09-24") true false).2.2 (by decide)).2 rfl

/-! ### C3 -/

/-- Counterexample to C3: the marker is recognized case-insensitively, but
the marker-plus-trailing-header form is only recognized in exact upper case
(line 142 checks `'BEGIN DATA ' in line` without `.upper()`). With a
lowercase marker, the trailing-header envelope takes the next-line branch
(consuming the first data row as the header), so the two forms parse
differently. -/
theorem C3_counterexample :
    loadCsv ["# begin data lat,lon", "1,2"] ≠
      loadCsv ["# begin data", "lat,lon", "1,2"] := by
  decide

/-- C3 (amended): the two envelope forms parse identically whenever the
combined marker line contains the exact-case separator `BEGIN DATA ` with
the header as the sole trailing content (hypotheses phrased through the
split the source itself performs), after any prefix of marker-free lines. -/
theorem C3_marker_header_equiv (pre rows : List String)
    (lineA lineB pA hdr : String)
    (hpre : ∀ l ∈ pre, containsMarker l = false)
    (hA : containsMarker lineA = true)
    (hAsplit : pySplit lineA "BEGIN DATA " = [pA, hdr])
    (hB : containsMarker lineB = true)
    (hBsplit : (pySplit lineB "BEGIN DATA ").length ≤ 1) :
    loadCsv (pre ++ lineA :: rows) = loadCsv (pre ++ lineB :: hdr :: rows) := by
  have h1 : findDataBlock (lineA :: rows) = .ok (pyStrip hdr, rows) := by
    simp [findDataBlock, hA, hAsplit]
  have h2 : findDataBlock (lineB :: hdr :: rows) = .ok (pyStrip hdr, rows) := by
    have hlen : ¬ (pySplit lineB "BEGIN DATA ").length > 1 := by omega
    simp [findDataBlock, hB, hlen]
  unfold loadCsv
  rw [findDataBlock_append pre _ hpre, findDataBlock_append pre _ hpre, h1, h2]

/-- Witness for C3 (amended) at a concrete upper-case envelope. -/
theorem C3_witness :
    loadCsv ["# meta", "# BEGIN DATA lat,lon", "1,2"] =
      loadCsv ["# meta", "# BEGIN DATA", "lat,lon", "1,2"] :=
  C3_marker_header_equiv ["# meta"] ["1,2"] "# BEGIN DATA lat,lon" "# BEGIN DATA"
    "# " "lat,lon" (by decide) (by decide) (by decide) (by decide) (by decide)

/-! ### C1 -/

/-- Counterexample to C1: one unparsable `init_time` cell makes
`pd.to_datetime` raise (default `errors='raise'`), the typing step aborts,
and the handler discards the whole table — the other, well-formed row is
lost rather than preserved with one `Missing` cell. -/
theorem C1_counterexample :
    typeSteps (readCsv "init_time,lat" ["notadate,1.5", "2024-09-23 00:00:00,2.5"]) = none ∧
    loadCsv ["# BEGIN DATA init_time,lat", "notadate,1.5", "2024-09-23 00:00:00,2.5"] =
      emptyFrame := by
  exact ⟨by decide, by decide⟩

/-- C1 (amended): numeric-column typing never fails and is per-cell — every
numeric column is mapped cell-by-cell (unparsable cells to `Missing`), all
other columns are untouched, and no column is added or removed; but an
unparsable `init_time` (timestamp) cell aborts the whole typing step, which
then returns the empty table. -/
theorem C1_cell_typing (df : Frame) :
    (Frame.names (convertNumerics df) = df.names) ∧
    (∀ p ∈ df.cols, p.1 ∈ numericColumns →
      (p.1, p.2.map toNumericCell) ∈ (convertNumerics df).cols) ∧
    (∀ p ∈ df.cols, p.1 ∉ numericColumns → p ∈ (convertNumerics df).cols) ∧
    (∀ c s, ("init_time", c) ∈ df.cols → Value.vstr s ∈ c → parseTimestamp s = none →
      typeSteps df = none) := by
  refine ⟨convertNumerics_names df, ?_, ?_, ?_⟩
  · intro p hp hnum
    show (p.1, p.2.map toNumericCell) ∈ df.cols.map fun p =>
      if p.1 ∈ numericColumns then (p.1, p.2.map toNumericCell) else p
    exact List.mem_map.mpr ⟨p, hp, by simp [hnum]⟩
  · intro p hp hnum
    show p ∈ df.cols.map fun p =>
      if p.1 ∈ numericColumns then (p.1, p.2.map toNumericCell) else p
    exact List.mem_map.mpr ⟨p, hp, by simp [hnum]⟩
  · intro c s hc hs hts
    have hkeep : ("init_time", c) ∈ (dropAllMissingCols df).cols := by
      apply List.mem_filter.mpr
      refine ⟨hc, ?_⟩
      apply List.any_eq_true.mpr
      exact ⟨Value.vstr s, hs, rfl⟩
    have hcell : toDatetimeCell (Value.vstr s) = none := by
      simp [toDatetimeCell, hts]
    have hcol : optionMapM toDatetimeCell c = none :=
      optionMapM_eq_none _ c _ hs hcell
    have hf : (fun p : String × List Value =>
        if p.1 ∈ datetimeColumns then (optionMapM toDatetimeCell p.2).map ((p.1, ·))
        else some p) ("init_time", c) = none := by
      simp [datetimeColumns, hcol]
    have hconv : convertDatetimes (dropAllMissingCols df) = none := by
      unfold convertDatetimes
      rw [optionMapM_eq_none _ _ _ hkeep hf]
      rfl
    simp [typeSteps, hconv]

/-- A frame with an unparsable timestamp cell, for the C1 witness. -/
def df1w : Frame := ⟨[("init_time", [.vstr "nope"]), ("lat", [.vstr "1.5"])]⟩

/-- Witness for C1 (amended) at a concrete frame. -/
theorem C1_witness :
    Frame.names (convertNumerics df1w) = df1w.names ∧ typeSteps df1w = none :=
  ⟨(C1_cell_typing df1w).1,
   (C1_cell_typing df1w).2.2.2 [.vstr "nope"] "nope" (by decide) (by decide) (by decide)⟩

/-! ### C4 -/

theorem datetime_f_fst (p q : String × List Value)
    (h : (if p.1 ∈ datetimeColumns then (optionMapM toDatetimeCell p.2).map ((p.1, ·))
          else some p) = some q) : q.1 = p.1 := by
  by_cases hc : p.1 ∈ datetimeColumns
  · rw [if_pos hc] at h
    cases ho : optionMapM toDatetimeCell p.2 with
    | none => rw [ho] at h; cases h
    | some z =>
      rw [ho] at h
      have h5 : some (p.1, z) = some q := h
      injection h5 with h5
      rw [← h5]
  · rw [if_neg hc] at h
    injection h with h
    rw [← h]

theorem timedelta_f_fst (p q : String × List Value)
    (h : (if p.1 = "lead_time" then (optionMapM toTimedeltaCell p.2).map ((p.1, ·))
          else some p) = some q) : q.1 = p.1 := by
  by_cases hc : p.1 = "lead_time"
  · rw [if_pos hc] at h
    cases ho : optionMapM toTimedeltaCell p.2 with
    | none => rw [ho] at h; cases h
    | some z =>
      rw [ho] at h
      have h5 : some (p.1, z) = some q := h
      injection h5 with h5
      rw [← h5]
  · rw [if_neg hc] at h
    injection h with h
    rw [← h]

theorem convertDatetimes_names (df df2 : Frame) (h : convertDatetimes df = some df2) :
    df2.names = df.names := by
  unfold convertDatetimes at h
  cases h4 : optionMapM (fun p =>
      if p.1 ∈ datetimeColumns then (optionMapM toDatetimeCell p.2).map ((p.1, ·))
      else some p) df.cols with
  | none => rw [h4] at h; cases h
  | some cols2 =>
    rw [h4] at h
    have h5 : some (Frame.mk cols2) = some df2 := h
    injection h5 with h5
    rw [← h5]
    exact optionMapM_names datetime_f_fst df.cols cols2 h4

theorem convertTimedeltas_names (df df2 : Frame) (h : convertTimedeltas df = some df2) :
    df2.names = df.names := by
  unfold convertTimedeltas at h
  cases h4 : optionMapM (fun p =>
      if p.1 = "lead_time" then (optionMapM toTimedeltaCell p.2).map ((p.1, ·))
      else some p) df.cols with
  | none => rw [h4] at h; cases h
  | some cols2 =>
    rw [h4] at h
    have h5 : some (Frame.mk cols2) = some df2 := h
    injection h5 with h5
    rw [← h5]
    exact optionMapM_names timedelta_f_fst df.cols cols2 h4

/-- Counterexample to C4: a numeric column (`lat`) whose every cell is a
non-empty unparsable string survives the (pre-typing) empty-column removal
and comes out of the typing step as an all-`Missing` column — it is not
removed. -/
theorem C4_counterexample :
    (loadCsv ["# BEGIN DATA track_id,lat", "a,abc", "b,xyz"]).getCol? "lat" =
      some [Value.missing, Value.missing] := by
  decide

/-- C4 (amended): the all-missing-column removal runs before typing, on the
raw cells: whenever the typing step succeeds, the resulting columns are
exactly the raw columns that have at least one non-empty cell. Hence no
column with a non-missing raw (and so typed) value is removed, but a column
that becomes all-`Missing` only through coercion is retained. -/
theorem C4_column_removal (df dft : Frame) (h : typeSteps df = some dft) :
    dft.names = (df.cols.filter fun p => p.2.any notna).map Prod.fst := by
  have h0 : ((convertDatetimes (dropAllMissingCols df)).bind fun df2 =>
      (convertTimedeltas df2).bind fun df3 => some (convertNumerics df3)) = some dft := h
  cases h2 : convertDatetimes (dropAllMissingCols df) with
  | none => rw [h2] at h0; cases h0
  | some df2 =>
    rw [h2] at h0
    have h1 : ((convertTimedeltas df2).bind fun df3 =>
        some (convertNumerics df3)) = some dft := h0
    cases h3 : convertTimedeltas df2 with
    | none => rw [h3] at h1; cases h1
    | some df3 =>
      rw [h3] at h1
      have h5 : some (convertNumerics df3) = some dft := h1
      injection h5 with h5
      rw [← h5]
      calc (convertNumerics df3).names
          = df3.names := convertNumerics_names df3
        _ = df2.names := convertTimedeltas_names df2 df3 h3
        _ = (dropAllMissingCols df).names := convertDatetimes_names _ df2 h2
        _ = (df.cols.filter fun p => p.2.any notna).map Prod.fst := rfl

/-- A raw frame with one kept, one coercion-killed and one raw-empty column,
for the C4 witness. -/
def df4w : Frame :=
  ⟨[("track_id", [.vstr "a"]), ("lat", [.vstr "abc"]), ("note", [.missing])]⟩

/-- The typed output of `df4w`. -/
def df4wOut : Frame := ⟨[("track_id", [.vstr "a"]), ("lat", [.missing])]⟩

/-- Witness for C4 (amended) at a concrete frame. -/
theorem C4_witness :
    df4wOut.names = (df4w.cols.filter fun p => p.2.any notna).map Prod.fst :=
  C4_column_removal df4w df4wOut (by decide)

/-! ### C8 -/

/-- C8 (amended): a range fetch over any list of dates always produces
exactly one entry per date, in order; no entry ever carries an `error`
field, because the per-date fetch swallows every failure (data_fetcher
lines 99-104) and returns a zero-record result instead of raising, so
get_data_range's except-branch is unreachable. A date whose fetch fails
(for example a network failure) yields `record_count = 0`, empty records
and no error field; one failing date never aborts the batch. -/
theorem C8_range_isolation (env : Env) (start : String) (dates : List String)
    (force : Bool) :
    ((getDataRange env start dates force).data.map Prod.fst = dates) ∧
    (∀ d e, (d, e) ∈ (getDataRange env start dates force).data →
      e.error = none ∧ e.record_count = e.records.length) ∧
    (∀ d e, (d, e) ∈ (getDataRange env start dates force).data →
      downloadHurricaneData env (.str d) force = .failed →
      e = ⟨0, [], none⟩) := by
  refine ⟨?_, ?_, ?_⟩
  · show (dates.map fun d =>
      ((d, RangeEntry.mk (getDataForDate env d force).record_count
        (getDataForDate env d force).records none) : String × RangeEntry)).map Prod.fst = dates
    induction dates with
    | nil => rfl
    | cons d ds ih => simpa using ih
  · intro d e hmem
    obtain ⟨d0, hd0, heq⟩ := List.mem_map.mp hmem
    have he : e = RangeEntry.mk (getDataForDate env d0 force).record_count
        (getDataForDate env d0 force).records none := by
      have := congrArg Prod.snd heq
      simpa using this.symm
    rw [he]
    exact ⟨rfl, rfl⟩
  · intro d e hmem hfail
    obtain ⟨d0, hd0, heq⟩ := List.mem_map.mp hmem
    have hd : d0 = d := by
      have := congrArg Prod.fst heq
      simpa using this
    subst hd
    have he : e = RangeEntry.mk (getDataForDate env d0 force).record_count
        (getDataForDate env d0 force).records none := by
      have := congrArg Prod.snd heq
      simpa using this.symm
    have hrec : (getDataForDate env d0 force).records = [] := by
      show dataframeToRecords (toDf (downloadHurricaneData env (.str d0) force)) = []
      rw [hfail]
      rfl
    have hcount : (getDataForDate env d0 force).record_count = 0 := by
      show (dataframeToRecords (toDf (downloadHurricaneData env (.str d0) force))).length = 0
      rw [hfail]
      rfl
    rw [he, hrec, hcount]

/-- A healthy one-row vendor file, reused across the fetch-layer scenarios. -/
def goodLines : List String :=
  ["# comment",
   "# BEGIN DATA track_id,lat,lon,maximum_sustained_wind_speed_knots,minimum_sea_level_pressure_hpa,valid_time,radius_34_knot_winds_ne_km",
   "AL01,10.5,-50.25,35,1005,2024-09-23 00:00:00,40"]

/-- Three consecutive dates; the middle date has no local file and the
remote is down, so its fetch fails. -/
def dates8 : List String := ["2024-09-23", "2024-09-24", "2024-09-25"]

def env8 : Env :=
  { localFiles := fun n =>
      if n = "FNV3_2024_09_23T00_00_paired.csv" then some goodLines
      else if n = "FNV3_2024_09_25T00_00_paired.csv" then some goodLines
      else none
    ageDays := fun _ => 0
    remote := fun _ => none }

set_option maxRecDepth 10000 in
/-- Counterexample to C8: in a 3-date range whose middle date's fetch fails
with a network failure, the middle entry has `record_count = 0` and empty
records but NO error field (`error = none`), while the claim requires an
error field on failing dates. The neighbours carry their normal records. -/
theorem C8_counterexample :
    downloadHurricaneData env8 (.str "2024-09-24") false = .failed ∧
    (getDataRange env8 "2024-09-23" dates8 false).data.lookup "2024-09-24" =
      some ⟨0, [], none⟩ ∧
    ((getDataRange env8 "2024-09-23" dates8 false).data.lookup "2024-09-23").map
      RangeEntry.record_count = some 1 ∧
    ((getDataRange env8 "2024-09-23" dates8 false).data.lookup "2024-09-25").map
      RangeEntry.record_count = some 1 := by
  refine ⟨by decide, by decide, by decide, by decide⟩

/-- The middle entry of the concrete range above. -/
def e8mid : RangeEntry :=
  (((getDataRange env8 "2024-09-23" dates8 false).data.lookup "2024-09-24").getD
    ⟨7, [], some "unreached"⟩)

/-- Witness for C8 (amended) at the concrete environment. -/
theorem C8_witness : e8mid.error = none ∧ e8mid.record_count = e8mid.records.length :=
  (C8_range_isolation env8 "2024-09-23" dates8 false).2.1 "2024-09-24" e8mid (by decide)

/-! ### C9 -/

/-- C9 (code bug): fetch_service.get_summary_for_date line 72 passes the
fetched DataFrame itself, not the date string, to get_hurricane_summary,
whose own re-fetch then builds filenames and a URL from `str(DataFrame)`
(a multi-line rendering no cache file can be named after and no URL parser
accepts — the hypotheses state exactly that the environment fails on those
keys). The inner fetch therefore returns None and the summary comes back as
the empty dict, even when the date's own fetch produced a non-empty typed
table with a `track_id` column. -/
theorem C9_summary_bug (env : Env) (date : String) (df : Frame)
    (hfetch : toDf (downloadHurricaneData env (.str date) false) = some df)
    (_hne : df.isEmpty = false)
    (_htid : (df.getCol? "track_id").isSome = true)
    (h1 : ∀ fn ∈ possibleFilenames (.frame df), env.localFiles fn = none)
    (h2 : env.remote (weatherlabUrl (.frame df)) = none) :
    getSummaryForDate env date = { date := date, summary := none, error := none } := by
  have hfind : (possibleFilenames (.frame df)).find?
      (fun fn => (env.localFiles fn).isSome) = none := by
    apply List.find?_eq_none.mpr
    intro x hx
    simp [h1 x hx]
  have hfp : env.localFiles ("FNV3_" ++ argKey (.frame df) ++ "T00_00_paired.csv") = none :=
    h1 _ (by simp [possibleFilenames])
  have hdl : downloadHurricaneData env (.frame df) false = .failed := by
    simp [downloadHurricaneData, hfind, hfp, h2]
  unfold getSummaryForDate
  rw [hfetch]
  show (match getHurricaneSummary env (.frame df) with
    | .ok s => ({ date := date, summary := s, error := none } : SummaryResponse)
    | .error e => { date := date, summary := none, error := some e }) = _
  unfold getHurricaneSummary
  rw [hdl]
  rfl

/-- The non-empty typed table the good cache file yields. -/
def df9 : Frame := loadCsv goodLines

/-- An environment caching the good file for 2024-09-23 only. -/
def env9 : Env :=
  { localFiles := fun n => if n = "FNV3_2024_09_23T00_00_paired.csv" then some goodLines else none
    ageDays := fun _ => 0
    remote := fun _ => none }

set_option maxRecDepth 10000 in
/-- Witness for C9 at a concrete environment: the fetch for the date yields
a one-row table with a `track_id` column, yet the summary response carries
the empty summary. -/
theorem C9_witness :
    getSummaryForDate env9 "2024-09-23" =
      { date := "2024-09-23", summary := none, error := none } :=
  C9_summary_bug env9 "2024-09-23" df9 (by decide) (by decide) (by decide)
    (by decide) (by decide)

/-! ### C5 and C6 -/

/-- The record one successful groupby iteration produces, written out with
the column lists already looked up. -/
def trackSummarySpec (tid wind pres la lo vt ne : List Value) (k : String) : TrackSummary :=
  { track_id := k
    records := (maskOf tid k).count true
    max_wind_speed := seriesMaxQ (colGroup (maskOf tid k) wind)
    min_pressure := seriesMinQ (colGroup (maskOf tid k) pres)
    lat_range := (seriesMinQ (colGroup (maskOf tid k) la), seriesMaxQ (colGroup (maskOf tid k) la))
    lon_range := (seriesMinQ (colGroup (maskOf tid k) lo), seriesMaxQ (colGroup (maskOf tid k) lo))
    time_range := (seriesMinT (colGroup (maskOf tid k) vt), seriesMaxT (colGroup (maskOf tid k) vt))
    has_radius_data := (colGroup (maskOf tid k) ne).any notna }

theorem trackSummaryFor_eq (df : Frame) (tid wind pres la lo vt ne : List Value) (k : String)
    (hw : df.getCol? "maximum_sustained_wind_speed_knots" = some wind)
    (hp : df.getCol? "minimum_sea_level_pressure_hpa" = some pres)
    (hla : df.getCol? "lat" = some la)
    (hlo : df.getCol? "lon" = some lo)
    (hvt : df.getCol? "valid_time" = some vt)
    (hne : df.getCol? "radius_34_knot_winds_ne_km" = some ne) :
    trackSummaryFor df tid k = .ok (trackSummarySpec tid wind pres la lo vt ne k) := by
  unfold trackSummaryFor getCol trackSummarySpec
  rw [hw, hp, hla, hlo, hvt, hne]
  rfl

theorem ok_bind {ε α β : Type} (a : α) (f : α → Except ε β) :
    ((Except.ok a : Except ε α) >>= f) = f a := rfl

theorem summary_hurricanes (d : DateArg) (df : Frame)
    (tid wind pres la lo vt ne : List Value) (s : Summary)
    (htid : df.getCol? "track_id" = some tid)
    (hw : df.getCol? "maximum_sustained_wind_speed_knots" = some wind)
    (hp : df.getCol? "minimum_sea_level_pressure_hpa" = some pres)
    (hla : df.getCol? "lat" = some la)
    (hlo : df.getCol? "lon" = some lo)
    (hvt : df.getCol? "valid_time" = some vt)
    (hne : df.getCol? "radius_34_knot_winds_ne_km" = some ne)
    (hsum : getHurricaneSummaryDf d (some df) = .ok (some s)) :
    ∀ k ts, (k, ts) ∈ s.hurricanes → ts = trackSummarySpec tid wind pres la lo vt ne k := by
  have hmap : exceptMapM (fun k => do
      let ts ← trackSummaryFor df tid k
      pure (k, ts)) (tidKeys tid) =
      .ok ((tidKeys tid).map fun k => (k, trackSummarySpec tid wind pres la lo vt ne k)) := by
    apply exceptMapM_ok_of_forall
    intro k _
    rw [trackSummaryFor_eq df tid wind pres la lo vt ne k hw hp hla hlo hvt hne]
    rfl
  cases hemp : df.isEmpty with
  | true =>
    simp only [getHurricaneSummaryDf, hemp, if_true] at hsum
    exact absurd (Except.ok.inj hsum) (by simp)
  | false =>
    have hs : s.hurricanes = (tidKeys tid).map fun k =>
        (k, trackSummarySpec tid wind pres la lo vt ne k) := by
      simp only [getHurricaneSummaryDf, hemp, getCol, htid, hw, hp, hla, hlo, hne, hmap,
        ok_bind, Bool.false_eq_true, if_false] at hsum
      have h7 := Option.some.inj (Except.ok.inj hsum)
      rw [← h7]
    intro k ts hmem
    rw [hs] at hmem
    obtain ⟨k0, _, heq⟩ := List.mem_map.mp hmem
    have hfst : k0 = k := by
      have := congrArg Prod.fst heq
      simpa using this
    subst hfst
    have := congrArg Prod.snd heq
    simpa using this.symm

def defaultTrack : TrackSummary :=
  ⟨"", 0, .missing, .missing, (.missing, .missing), (.missing, .missing),
   (.missing, .missing), false⟩

def defaultSummary : Summary :=
  ⟨.str "", 0, [], ⟨false, false, false, false, (.missing, .missing), (.missing, .missing)⟩⟩

/-- Project the populated summary out of a summarizer result. -/
def summaryOf (r : Except String (Option Summary)) : Summary :=
  match r with
  | .ok (some s) => s
  | _ => defaultSummary

/-- Project one track's summary out of a summarizer result. -/
def trackOf (r : Except String (Option Summary)) (k : String) : TrackSummary :=
  ((summaryOf r).hurricanes.lookup k).getD defaultTrack

/-- A typed table with one track whose wind-speed column is entirely
missing. -/
def df5 : Frame := ⟨[
  ("track_id", [.vstr "A", .vstr "A"]),
  ("maximum_sustained_wind_speed_knots", [.missing, .missing]),
  ("minimum_sea_level_pressure_hpa", [.vnum 990, .missing]),
  ("lat", [.vnum 10, .vnum 11]),
  ("lon", [.vnum (-50), .vnum (-51)]),
  ("valid_time", [.vtime 100, .vtime 200]),
  ("radius_34_knot_winds_ne_km", [.missing, .missing])]⟩

def s5 : Summary := summaryOf (getHurricaneSummaryDf (.str "2024-09-23") (some df5))

def ts5 : TrackSummary := trackOf (getHurricaneSummaryDf (.str "2024-09-23") (some df5)) "A"

/-- A typed table whose only non-missing 34-knot radius lies in the SE
column. -/
def df6 : Frame := ⟨[
  ("track_id", [.vstr "A"]),
  ("maximum_sustained_wind_speed_knots", [.vnum 50]),
  ("minimum_sea_level_pressure_hpa", [.vnum 990]),
  ("lat", [.vnum 10]),
  ("lon", [.vnum (-50)]),
  ("valid_time", [.vtime 100]),
  ("radius_34_knot_winds_ne_km", [.missing]),
  ("radius_34_knot_winds_se_km", [.vnum 30])]⟩

/-- A variant with the non-missing radius in the NE column. -/
def df6b : Frame := ⟨[
  ("track_id", [.vstr "A"]),
  ("maximum_sustained_wind_speed_knots", [.vnum 50]),
  ("minimum_sea_level_pressure_hpa", [.vnum 990]),
  ("lat", [.vnum 10]),
  ("lon", [.vnum (-50)]),
  ("valid_time", [.vtime 100]),
  ("radius_34_knot_winds_ne_km", [.vnum 25]),
  ("radius_34_knot_winds_se_km", [.missing])]⟩

def s6 : Summary := summaryOf (getHurricaneSummaryDf (.str "2024-09-23") (some df6b))

def ts6 : TrackSummary := trackOf (getHurricaneSummaryDf (.str "2024-09-23") (some df6b)) "A"

/-- Counterexample to C5: pandas `Series.max` over an all-NaN group returns
NaN, not 0.0 — the per-track `max_wind_speed` of a track whose every
wind-speed cell is missing is the missing marker (serialized null), and in
particular is not the numeric 0.0 the claim requires. -/
theorem C5_counterexample :
    (trackOf (getHurricaneSummaryDf (.str "2024-09-23") (some df5)) "A").max_wind_speed =
      Value.missing ∧ Value.missing ≠ Value.vnum 0 :=
  ⟨by decide, by decide⟩

/-- C5 (amended): for every typed table and every track group, the per-track
wind maximum is the maximum over the group's non-missing wind values and is
`Missing` (NaN — not 0.0) when the group has no non-missing wind value; the
pressure minimum and the latitude/longitude ranges have the same
missing-fallback. -/
theorem C5_aggregates (d : DateArg) (df : Frame)
    (tid wind pres la lo vt ne : List Value) (s : Summary)
    (htid : df.getCol? "track_id" = some tid)
    (hw : df.getCol? "maximum_sustained_wind_speed_knots" = some wind)
    (hp : df.getCol? "minimum_sea_level_pressure_hpa" = some pres)
    (hla : df.getCol? "lat" = some la)
    (hlo : df.getCol? "lon" = some lo)
    (hvt : df.getCol? "valid_time" = some vt)
    (hne : df.getCol? "radius_34_knot_winds_ne_km" = some ne)
    (hsum : getHurricaneSummaryDf d (some df) = .ok (some s)) :
    ∀ k ts, (k, ts) ∈ s.hurricanes →
      ((numsOf (colGroup (maskOf tid k) wind) = [] → ts.max_wind_speed = .missing) ∧
       (∀ q, ts.max_wind_speed = .vnum q →
         q ∈ numsOf (colGroup (maskOf tid k) wind) ∧
         ∀ r ∈ numsOf (colGroup (maskOf tid k) wind), r ≤ q)) ∧
      ((numsOf (colGroup (maskOf tid k) pres) = [] → ts.min_pressure = .missing) ∧
       (∀ q, ts.min_pressure = .vnum q →
         q ∈ numsOf (colGroup (maskOf tid k) pres) ∧
         ∀ r ∈ numsOf (colGroup (maskOf tid k) pres), q ≤ r)) ∧
      (numsOf (colGroup (maskOf tid k) la) = [] → ts.lat_range = (.missing, .missing)) ∧
      (numsOf (colGroup (maskOf tid k) lo) = [] → ts.lon_range = (.missing, .missing)) := by
  intro k ts hmem
  have hts := summary_hurricanes d df tid wind pres la lo vt ne s
    htid hw hp hla hlo hvt hne hsum k ts hmem
  subst hts
  refine ⟨⟨?_, ?_⟩, ⟨?_, ?_⟩, ?_, ?_⟩
  · intro hnil
    exact seriesMaxQ_missing _ hnil
  · intro q hq
    exact seriesMaxQ_spec _ q hq
  · intro hnil
    exact seriesMinQ_missing _ hnil
  · intro q hq
    exact seriesMinQ_spec _ q hq
  · intro hnil
    show (seriesMinQ (colGroup (maskOf tid k) la), seriesMaxQ (colGroup (maskOf tid k) la)) = _
    rw [seriesMinQ_missing _ hnil, seriesMaxQ_missing _ hnil]
  · intro hnil
    show (seriesMinQ (colGroup (maskOf tid k) lo), seriesMaxQ (colGroup (maskOf tid k) lo)) = _
    rw [seriesMinQ_missing _ hnil, seriesMaxQ_missing _ hnil]

set_option maxRecDepth 10000 in
/-- Witness for C5 (amended) at the concrete frame `df5`. -/
theorem C5_witness : ts5.max_wind_speed = Value.missing :=
  ((C5_aggregates (.str "2024-09-23") df5
    [.vstr "A", .vstr "A"] [.missing, .missing] [.vnum 990, .missing]
    [.vnum 10, .vnum 11] [.vnum (-50), .vnum (-51)] [.vtime 100, .vtime 200]
    [.missing, .missing] s5
    (by decide) (by decide) (by decide) (by decide) (by decide) (by decide) (by decide)
    (by rfl) "A" ts5 (by decide)).1.1 (by decide))

/-- Counterexample to C6: a group whose only non-missing 34-knot radius is
in the SE column gets `has_radius_data = false`, because line 257 consults
only the NE column — contradicting the claimed four-column disjunction. -/
theorem C6_counterexample :
    (trackOf (getHurricaneSummaryDf (.str "2024-09-23") (some df6)) "A").has_radius_data =
      false ∧
    (df6.getCol? "radius_34_knot_winds_se_km").map (fun c => c.any notna) = some true :=
  ⟨by decide, by decide⟩

/-- C6 (amended): the per-track `has_radius_data` flag is true iff the
NE 34-knot radius column alone has a non-missing value in the group; the
SE, SW and NW columns are never consulted. -/
theorem C6_radius_flag (d : DateArg) (df : Frame)
    (tid wind pres la lo vt ne : List Value) (s : Summary)
    (htid : df.getCol? "track_id" = some tid)
    (hw : df.getCol? "maximum_sustained_wind_speed_knots" = some wind)
    (hp : df.getCol? "minimum_sea_level_pressure_hpa" = some pres)
    (hla : df.getCol? "lat" = some la)
    (hlo : df.getCol? "lon" = some lo)
    (hvt : df.getCol? "valid_time" = some vt)
    (hne : df.getCol? "radius_34_knot_winds_ne_km" = some ne)
    (hsum : getHurricaneSummaryDf d (some df) = .ok (some s)) :
    ∀ k ts, (k, ts) ∈ s.hurricanes →
      (ts.has_radius_data = true ↔ ∃ v ∈ colGroup (maskOf tid k) ne, notna v = true) := by
  intro k ts hmem
  have hts := summary_hurricanes d df tid wind pres la lo vt ne s
    htid hw hp hla hlo hvt hne hsum k ts hmem
  subst hts
  show (colGroup (maskOf tid k) ne).any notna = true ↔ _
  simp [List.any_eq_true]

set_option maxRecDepth 10000 in
/-- Witness for C6 (amended) at the concrete frame `df6b`. -/
theorem C6_witness : ts6.has_radius_data = true :=
  ((C6_radius_flag (.str "2024-09-23") df6b
    [.vstr "A"] [.vnum 50] [.vnum 990] [.vnum 10] [.vnum (-50)] [.vtime 100]
    [.vnum 25] s6
    (by decide) (by decide) (by decide) (by decide) (by decide) (by decide) (by decide)
    (by rfl) "A" ts6 (by decide)).mpr ⟨Value.vnum 25, by decide, rfl⟩)

end WeatherLab
